import Mathlib

/-!
Shallow embedding of `picosdk/library.py` (the `Library` driver-adapter class)
and proofs about its range resolution, channel configuration retry loop,
timebase normalization, overflow reporting, unit lifecycle and device guards.

Conventions of the embedding:
* Python floats are modelled as exact rationals (`ℚ`).
* Python ints are `Int` (or `Nat` where the source only ever passes
  non-negative enum constants).
* A native (ctypes) entry point is modelled by its bound `argtypes` list
  together with the values the opaque driver writes back / returns; raising
  an exception is modelled with `Except`.
-/

namespace PicoSDK

/-- The ctypes argument kinds the adapter dispatches on
(`c_int16`, `c_int32`, `c_uint32`, `c_float`, `c_double`, `c_void_p`). -/
inductive CType
  | i16
  | i32
  | u32
  | f32
  | f64
  | ptr
deriving DecidableEq, Repr

/-- The exception taxonomy used by `library.py` (from `picosdk.errors`),
restricted to the errors the embedded functions can raise. -/
inductive PicoErr
  | validRangeEnumValueNotValidForThisDevice
  | argumentOutOfRange
  | invalidTimebase
  | deviceNotFound
  | notImplemented
deriving DecidableEq, Repr

/-- Modelled from the spec: `picosdk/constants.py` is not part of the sources
under review; the spec only requires that `PICO_STATUS` contains one reserved
"OK" value and distinct specific failure codes, among them an
"invalid voltage range" and an "invalid channel" code. We model the three
codes the adapter inspects as distinct integers. -/
def PICO_OK : Int := 0

/-- Modelled from the spec: the distinct `PICO_STATUS` code the status-form
`set_channel` maps to a range rejection (`RangeNotSupported`). -/
def PICO_INVALID_VOLTAGE_RANGE : Int := 15

/-- Modelled from the spec: the distinct `PICO_STATUS` code for "invalid
channel", swallowed by `set_channel` only when disabling. -/
def PICO_INVALID_CHANNEL : Int := 16

/-! ## voltage_to_logic_level (library.py lines 46-59) -/

/-- Python's `int()` applied to a number: truncation toward zero. -/
def pyInt (q : ℚ) : ℤ := if 0 ≤ q then q.floor else -((-q).floor)

/-- `voltage_to_logic_level(voltage)`:
`clamped_voltage = min(max(-5, voltage), 5)`;
`logic_level = int(clamped_voltage * (32767 / 5))`. -/
def voltage_to_logic_level (voltage : ℚ) : ℤ :=
  let clamped_voltage := min (max (-5) voltage) 5
  pyInt (clamped_voltage * (32767 / 5))

/-! ## _resolve_range (library.py lines 355-366) -/

/-- Python's `min(list, key=snd)`: the first element whose second component is
minimal (later elements replace the best only when strictly smaller). -/
def pyMinBySnd : List (Nat × ℚ) → Option (Nat × ℚ)
  | [] => none
  | x :: xs => some (xs.foldl (fun best y => if y.2 < best.2 then y else best) x)

/-- `Library._resolve_range(signal_peak, exclude)` over a voltage-range table
(`PICO_VOLTAGE_RANGE.items()` as a list of `(id, max_voltage)` pairs):
filters entries with `tup[1] >= signal_peak and tup[0] not in exclude`, raises
`ArgumentOutOfRangeError` (here: `none`) when nothing qualifies, otherwise
returns `min(possibilities, key=lambda i: i[1])`. -/
def resolve_range (table : List (Nat × ℚ)) (signal_peak : ℚ) (exclude : List Nat) :
    Option (Nat × ℚ) :=
  let possibilities := table.filter
    (fun tup => decide (signal_peak ≤ tup.2) && !(exclude.contains tup.1))
  pyMinBySnd possibilities

/-! ## _python_set_channel (library.py lines 368-406) -/

/-- One invocation of the native `_set_channel` entry point: the argument
tuple the adapter passes (handle, channel id, enabled flag as int, coupling
id, range id, and the analog-offset float when the 6-parameter form is
bound). -/
structure SetChanCall where
  handle : Int
  channel : Nat
  enabled : Nat
  coupling : Nat
  range : Nat
  offset : Option ℚ
deriving DecidableEq, Repr

/-- The bound `_set_channel` capability: its ctypes `argtypes` and the
opaque driver's response (return code for the boolean form, status code for
the status forms) as a function of the argument tuple. -/
structure SetChanEnv where
  set_channel_argtypes : List CType
  set_channel_native : SetChanCall → Int

/-- `Library._python_set_channel`. Dispatches on the bound signature:
* 5 parameters with a `c_int16` second parameter: boolean-return form; a
  non-null analog offset raises `ArgumentOutOfRangeError` first; a zero
  return raises `ValidRangeEnumValueNotValidForThisDevice`.
* 5 parameters with a `c_int32` second parameter, or 6 parameters:
  status-code form; the 6-parameter form defaults a `None` offset to `0.0`,
  the 5-parameter form rejects a non-null offset; a non-OK status maps
  `PICO_INVALID_VOLTAGE_RANGE` to `ValidRangeEnumValueNotValidForThisDevice`,
  swallows `PICO_INVALID_CHANNEL` when `enabled` is falsy, and raises
  `ArgumentOutOfRangeError` otherwise.
* anything else raises `NotImplementedError`.
Alongside the result we return the list of native calls issued. -/
def python_set_channel (env : SetChanEnv) (handle : Int)
    (channel_id enabled coupling_id range_id : Nat) (analog_offset : Option ℚ) :
    Except PicoErr Unit × List SetChanCall :=
  if env.set_channel_argtypes.length = 5 ∧ env.set_channel_argtypes[1]? = some .i16 then
    if analog_offset ≠ none then (.error .argumentOutOfRange, [])
    else
      let call : SetChanCall := ⟨handle, channel_id, enabled, coupling_id, range_id, none⟩
      let return_code := env.set_channel_native call
      if return_code = 0 then (.error .validRangeEnumValueNotValidForThisDevice, [call])
      else (.ok (), [call])
  else if (env.set_channel_argtypes.length = 5 ∧ env.set_channel_argtypes[1]? = some .i32)
      ∨ env.set_channel_argtypes.length = 6 then
    let sub : Except PicoErr (Int × List SetChanCall) :=
      if env.set_channel_argtypes.length = 6 then
        let offset := analog_offset.getD 0
        let call : SetChanCall := ⟨handle, channel_id, enabled, coupling_id, range_id, some offset⟩
        .ok (env.set_channel_native call, [call])
      else
        if analog_offset ≠ none then .error .argumentOutOfRange
        else
          let call : SetChanCall := ⟨handle, channel_id, enabled, coupling_id, range_id, none⟩
          .ok (env.set_channel_native call, [call])
    match sub with
    | .error e => (.error e, [])
    | .ok (status, calls) =>
      if status ≠ PICO_OK then
        if status = PICO_INVALID_VOLTAGE_RANGE then
          (.error .validRangeEnumValueNotValidForThisDevice, calls)
        else if status = PICO_INVALID_CHANNEL ∧ enabled = 0 then
          -- don't throw errors if the user tried to disable a missing channel
          (.ok (), calls)
        else (.error .argumentOutOfRange, calls)
      else (.ok (), calls)
  else (.error .notImplemented, [])

/-! ## set_channel retry loop (library.py lines 290-326) -/

/-- The observable result of `Library.set_channel`: the returned max voltage
on success (`None` when disabling), or the exception that escaped. -/
inductive SetChanOutcome
  | accepted (max_voltage : Option ℚ)
  | failed (e : PicoErr)
deriving DecidableEq, Repr

/-- The `while not reliably_resolved` loop of `Library.set_channel`, with
explicit fuel: each iteration resolves a range (or uses `range_id = 0` with
no resolution when disabling), calls `_python_set_channel`, and on
`ValidRangeEnumValueNotValidForThisDevice` appends the rejected id to
`excluded` and retries. `none` means the fuel ran out with the loop still
running. -/
def set_channel_loop (env : SetChanEnv) (table : List (Nat × ℚ)) (handle : Int)
    (channel_id coupling_id : Nat) (enabled : Bool) (range_peak : ℚ)
    (analog_offset : Option ℚ) : Nat → List Nat → Option SetChanOutcome
  | 0, _ => none
  | fuel + 1, excluded =>
    let resolved : Except PicoErr (Nat × Option ℚ) :=
      if enabled then
        match resolve_range table range_peak excluded with
        | none => .error .argumentOutOfRange
        | some (rid, mv) => .ok (rid, some mv)
      else .ok (0, none)
    match resolved with
    | .error e => some (.failed e)
    | .ok (range_id, max_voltage) =>
      match (python_set_channel env handle channel_id (if enabled then 1 else 0)
              coupling_id range_id analog_offset).1 with
      | .ok _ => some (.accepted max_voltage)
      | .error .validRangeEnumValueNotValidForThisDevice =>
        set_channel_loop env table handle channel_id coupling_id enabled range_peak
          analog_offset fuel (excluded ++ [range_id])
      | .error e => some (.failed e)

/-- `Library.set_channel` terminates for the given inputs: some finite fuel
suffices for the retry loop (started with an empty exclusion tuple) to end. -/
def set_channel_terminates (env : SetChanEnv) (table : List (Nat × ℚ)) (handle : Int)
    (channel_id coupling_id : Nat) (enabled : Bool) (range_peak : ℚ)
    (analog_offset : Option ℚ) : Prop :=
  ∃ fuel, (set_channel_loop env table handle channel_id coupling_id enabled range_peak
    analog_offset fuel []).isSome

/-- A driver whose bound `_set_channel` is the boolean-return 5-parameter
form (second argtype `c_int16`) and whose device rejects every request
(return code 0) — e.g. disabling a channel the hardware variant lacks. -/
def rejectAllEnv : SetChanEnv :=
  { set_channel_argtypes := [.i16, .i16, .i16, .i16, .i16]
    set_channel_native := fun _ => 0 }

/-- The status-code `_set_channel` shapes: 5 parameters with a `c_int32`
second parameter, or 6 parameters (this is the guard of the status-code
branch of `_python_set_channel`). -/
def status_form (env : SetChanEnv) : Prop :=
  (env.set_channel_argtypes.length = 5 ∧ env.set_channel_argtypes[1]? = some CType.i32) ∨
  env.set_channel_argtypes.length = 6

/-- A driver bound to the 6-parameter status-code `_set_channel` form whose
device reports "invalid channel" for every request (as when the addressed
channel is beyond the hardware's channel count). -/
def invalidChannelEnv : SetChanEnv :=
  { set_channel_argtypes := [.i16, .i32, .i16, .i32, .i32, .f32]
    set_channel_native := fun _ => PICO_INVALID_CHANNEL }

/-- A driver bound to the 5-parameter status-code (`c_int32` second
parameter) `_set_channel` form. -/
def int32Env : SetChanEnv :=
  { set_channel_argtypes := [.i16, .i32, .i32, .i32, .i32]
    set_channel_native := fun _ => PICO_OK }

/-! ## get_timebase (library.py lines 419-467) -/

/-- The bound timebase capabilities and the values the opaque driver writes
back: `_get_timebase` fills integer nanoseconds (legacy form), while
`_get_timebase2` fills float nanoseconds and returns a status code. -/
structure GetTimebaseEnv where
  get_timebase_argtypes : List CType
  legacy_return_code : Int
  legacy_time_interval : Int
  legacy_time_units : Int
  legacy_max_samples : Int
  has_get_timebase2 : Bool
  get_timebase2_argtypes : List CType
  tb2_status : Int
  tb2_time_interval : ℚ
  tb2_max_samples : Int

/-- The `TimebaseInfo` named tuple of library.py. -/
structure TimebaseInfo where
  timebase_id : Nat
  time_interval : ℚ
  time_units : Option Int
  max_samples : Int
  segment_id : Option Nat
deriving DecidableEq, Repr

/-- `Library._python_get_timebase`: dispatches by the bound parameter types
(7 arguments with a `c_int16` second argument → legacy integer-nanosecond
form, raising `InvalidTimebaseError` on a zero return; otherwise, when
`_get_timebase2` is bound with 7 arguments and a `c_uint32` second argument
→ float-nanosecond form, raising `InvalidTimebaseError` on a non-OK
status). The returned `time_interval` is still in nanoseconds. -/
def python_get_timebase (env : GetTimebaseEnv) (timebase_id : Nat)
    (segment_index : Nat) : Except PicoErr TimebaseInfo :=
  if env.get_timebase_argtypes.length = 7 ∧ env.get_timebase_argtypes[1]? = some .i16 then
    if env.legacy_return_code = 0 then .error .invalidTimebase
    else .ok ⟨timebase_id, (env.legacy_time_interval : ℚ), some env.legacy_time_units,
              env.legacy_max_samples, none⟩
  else if env.has_get_timebase2 ∧ env.get_timebase2_argtypes.length = 7
      ∧ env.get_timebase2_argtypes[1]? = some .u32 then
    if env.tb2_status ≠ PICO_OK then .error .invalidTimebase
    else .ok ⟨timebase_id, env.tb2_time_interval, none, env.tb2_max_samples, some segment_index⟩
  else .error .notImplemented

/-- `Library.get_timebase`: converts the nanoseconds result of
`_python_get_timebase` into seconds by multiplying the interval by `1.e-9`
(modelled as the exact rational `1 / 10^9`). -/
def get_timebase (env : GetTimebaseEnv) (timebase_id : Nat) (segment_index : Nat) :
    Except PicoErr TimebaseInfo :=
  match python_get_timebase env timebase_id segment_index with
  | .error e => .error e
  | .ok r => .ok ⟨r.timebase_id, r.time_interval * (1 / 1000000000), r.time_units,
                  r.max_samples, r.segment_id⟩

/-- The legacy timebase shape: `_get_timebase` bound with 7 parameters and a
`c_int16` second parameter (the guard of the legacy branch of
`_python_get_timebase`). -/
def legacy_timebase_shape (env : GetTimebaseEnv) : Prop :=
  env.get_timebase_argtypes.length = 7 ∧ env.get_timebase_argtypes[1]? = some CType.i16

/-- The current timebase shape: `_get_timebase2` bound with 7 parameters and
a `c_uint32` second parameter (the guard of the timebase2 branch of
`_python_get_timebase`). -/
def timebase2_shape (env : GetTimebaseEnv) : Prop :=
  env.has_get_timebase2 = true ∧ env.get_timebase2_argtypes.length = 7 ∧
  env.get_timebase2_argtypes[1]? = some CType.u32

/-- A driver bound to the legacy integer-nanosecond `_get_timebase` form,
whose device answers: success (return code 1), 8 ns interval, time-unit tag
1, 100 max samples. -/
def legacyTimebaseEnv : GetTimebaseEnv :=
  { get_timebase_argtypes := [.i16, .i16, .i32, .ptr, .ptr, .i16, .ptr]
    legacy_return_code := 1
    legacy_time_interval := 8
    legacy_time_units := 1
    legacy_max_samples := 100
    has_get_timebase2 := false
    get_timebase2_argtypes := []
    tb2_status := 0
    tb2_time_interval := 0
    tb2_max_samples := 0 }

/-- A driver bound to the float-nanosecond `_get_timebase2` form (its
`_get_timebase` bound with a non-legacy signature), whose device answers:
status OK, 12.5 ns interval, 200 max samples. -/
def timebase2Env : GetTimebaseEnv :=
  { get_timebase_argtypes := [.i16, .u32, .i32, .ptr, .i16, .ptr, .u32]
    legacy_return_code := 0
    legacy_time_interval := 0
    legacy_time_units := 0
    legacy_max_samples := 0
    has_get_timebase2 := true
    get_timebase2_argtypes := [.i16, .u32, .i32, .ptr, .i16, .ptr, .u32]
    tb2_status := 0
    tb2_time_interval := 25 / 2
    tb2_max_samples := 200 }

/-! ## get_values overflow translation (library.py lines 627-633) -/

/-- The tail of `Library.get_values`: translates the native per-channel
overflow bit field into the overflow-warning dict. For each active channel
(a key of `results`), the flag is set when
`overflow.value & (1 >> self.PICO_CHANNEL[channel])` is nonzero; the whole
block is skipped when `overflow.value` is zero. `pico_channel` is the
driver's `PICO_CHANNEL` name-to-index dict; the returned list holds the
channels reported as `True`. Python's `1 >> idx` on the non-negative int 1
is modelled by `Nat` shifting. -/
def overflow_warning (pico_channel : List (String × Nat)) (overflow : Int)
    (channels : List String) : List String :=
  if overflow ≠ 0 then
    channels.filter (fun channel =>
      Int.land overflow (((1 : Nat) >>> ((pico_channel.lookup channel).getD 0) : Nat) : Int) ≠ 0)
  else []

/-! ## list_units (library.py lines 133-148) -/

/-- The driver-side state `list_units` manipulates: the handles the native
open call will still hand out (in order), and the handles currently open.
`_python_open_unit` pops the next available handle or raises
`DeviceNotFoundError` (`none`) when no device is left. -/
structure UnitState where
  avail : List Int
  openh : List Int
deriving DecidableEq, Repr

/-- `Library._python_open_unit` against the simulated driver: opens the next
available unit, or fails with `DeviceNotFoundError` when none remains. -/
def python_open_unit : UnitState → Option (Int × UnitState)
  | ⟨[], _⟩ => none
  | ⟨h :: rest, o⟩ => some (h, ⟨rest, h :: o⟩)

/-- `Library._python_close_unit`: closes the given handle. -/
def python_close_unit (handle : Int) (s : UnitState) : UnitState :=
  ⟨s.avail, s.openh.erase handle⟩

/-- The `try: while True: ...` loop of `list_units`: repeatedly opens a unit
and records its info (the info record of a unit is represented by its
handle, standing for `_python_get_unit_info_wrapper(handle, [])`, which
raises nothing), appending the handle to `handles`; the loop exits when
`_python_open_unit` raises `DeviceNotFoundError`. Returns the accumulated
`(handles, device_infos)` and the driver state at loop exit. -/
def list_units_go : UnitState → List Int → List Int → List Int × List Int × UnitState
  | ⟨[], o⟩, handles, device_infos => (handles, device_infos, ⟨[], o⟩)
  | ⟨h :: rest, o⟩, handles, device_infos =>
    list_units_go ⟨rest, h :: o⟩ (handles ++ [h]) (device_infos ++ [h])
termination_by s _ _ => s.avail.length

/-- `Library.list_units`: runs the open/collect loop, then closes every
handle in `handles` in order, and returns the device infos together with
the final driver state. -/
def list_units (s : UnitState) : List Int × UnitState :=
  let r := list_units_go s [] []
  let s2 := r.1.foldl (fun st handle => python_close_unit handle st) r.2.2
  (r.2.1, s2)

/-! ## _python_get_unit_info_wrapper (library.py lines 265-288) -/

/-- The environment of `_python_get_unit_info_wrapper`: the driver's
`PICO_INFO` dict (info-key name to numeric constant) and
`_python_get_unit_info` (modelled as an opaque string query; each
invocation is one native info call, recorded as `(handle, info_type)`). -/
structure UnitInfoEnv where
  pico_info : List (String × Nat)
  native_info : Int → Nat → String

/-- `list(set(keys) - set(self.PICO_INFO.keys()))`: the requested keys that
are not declared in the driver's `PICO_INFO` dict, without duplicates. -/
def invalid_info_lines (env : UnitInfoEnv) (keys : List String) : List String :=
  (keys.filter (fun k => !((env.pico_info.map Prod.fst).contains k))).dedup

/-- `Library._python_get_unit_info_wrapper(handle, keys)`: first computes
`list(set(keys) - set(PICO_INFO.keys()))` and raises
`ArgumentOutOfRangeError` naming those invalid keys if any exist (issuing
no native call); with no keys it returns the backwards-compatible
(variant, serial) record; otherwise one `(key, value)` pair per requested
key. The second component lists the native info calls issued. -/
def python_get_unit_info_wrapper (env : UnitInfoEnv) (handle : Int) (keys : List String) :
    Except (List String) (List (String × String)) × List (Int × Nat) :=
  if invalid_info_lines env keys ≠ [] then (.error (invalid_info_lines env keys), [])
  else if keys = [] then
    let variant_code := (env.pico_info.lookup "PICO_VARIANT_INFO").getD 0
    let serial_code := (env.pico_info.lookup "PICO_BATCH_AND_SERIAL").getD 0
    (.ok [("variant", env.native_info handle variant_code),
          ("serial", env.native_info handle serial_code)],
     [(handle, variant_code), (handle, serial_code)])
  else
    (.ok (keys.map fun line => (line, env.native_info handle ((env.pico_info.lookup line).getD 0))),
     keys.map fun line => (handle, (env.pico_info.lookup line).getD 0))

/-- A driver declaring only the two universal info keys; its info query
answers a fixed string. -/
def uinfoEnv : UnitInfoEnv :=
  { pico_info := [("PICO_VARIANT_INFO", 3), ("PICO_BATCH_AND_SERIAL", 4)]
    native_info := fun _ _ => "4262" }

/-! ## requires_device (library.py lines 36-43) -/

/-- A `picosdk.device.Device`: its owning driver (identified by a numeral
standing for the `Library` instance) and its handle. -/
structure Device where
  driver : Nat
  handle : Int
deriving DecidableEq, Repr

/-- A Python value passed in the `device` position of a public `Library`
method: either an actual `Device` instance or anything else. -/
inductive PyArg
  | dev (d : Device)
  | notADevice
deriving DecidableEq, Repr

/-- The `requires_device` decorator: every decorated method first checks
`isinstance(device, Device) and device.driver == self` and raises
`TypeError` (modelled as `.error ()`) without running the wrapped method
body otherwise. The body returns its result together with the native calls
it makes; when the guard fails, no body call (hence no native call)
happens. -/
def requires_device {α β : Type} (self : Nat) (device : PyArg)
    (method : Device → α × List β) : Except Unit α × List β :=
  match device with
  | .notADevice => (.error (), [])
  | .dev d =>
    if d.driver ≠ self then (.error (), [])
    else
      let r := method d
      (.ok r.1, r.2)

/-! ## Helper lemmas -/

theorem ratFloor_eq_floor (q : ℚ) : q.floor = ⌊q⌋ :=
  (Rat.floor_def' q).trans Rat.floor_def.symm

theorem pyInt_eq (q : ℚ) : pyInt q = if 0 ≤ q then ⌊q⌋ else ⌈q⌉ := by
  unfold pyInt
  rcases le_or_lt 0 q with h | h
  · simp [h, ratFloor_eq_floor]
  · rw [if_neg (not_le.mpr h), if_neg (not_le.mpr h), ratFloor_eq_floor, Int.floor_neg, neg_neg]

theorem pyInt_mono {a b : ℚ} (hab : a ≤ b) : pyInt a ≤ pyInt b := by
  rw [pyInt_eq, pyInt_eq]
  rcases le_or_lt 0 a with ha | ha <;> rcases le_or_lt 0 b with hb | hb
  · rw [if_pos ha, if_pos hb]; exact Int.floor_le_floor hab
  · exact absurd (ha.trans hab) (not_le.mpr hb)
  · rw [if_neg (not_le.mpr ha), if_pos hb]
    exact (Int.ceil_le.mpr (by exact_mod_cast ha.le)).trans (Int.floor_nonneg.mpr hb)
  · rw [if_neg (not_le.mpr ha), if_neg (not_le.mpr hb)]; exact Int.ceil_le_ceil hab

theorem pyInt_intCast (n : ℤ) : pyInt ((n : ℤ) : ℚ) = n := by
  rw [pyInt_eq]
  split_ifs <;> simp

theorem pyFoldlMin_mem (x : Nat × ℚ) (xs : List (Nat × ℚ)) :
    xs.foldl (fun best y => if y.2 < best.2 then y else best) x ∈ x :: xs := by
  induction xs generalizing x with
  | nil => simp
  | cons y ys ih =>
    simp only [List.foldl_cons]
    rcases List.mem_cons.mp (ih (if y.2 < x.2 then y else x)) with h1 | h1
    · rw [h1]
      by_cases hc : y.2 < x.2
      · rw [if_pos hc]; exact List.mem_cons_of_mem _ (List.mem_cons_self _ _)
      · rw [if_neg hc]; exact List.mem_cons_self _ _
    · exact List.mem_cons_of_mem _ (List.mem_cons_of_mem _ h1)

theorem pyFoldlMin_le (x : Nat × ℚ) (xs : List (Nat × ℚ)) :
    (xs.foldl (fun best y => if y.2 < best.2 then y else best) x).2 ≤ x.2 ∧
    ∀ p ∈ xs, (xs.foldl (fun best y => if y.2 < best.2 then y else best) x).2 ≤ p.2 := by
  induction xs generalizing x with
  | nil => simp
  | cons y ys ih =>
    simp only [List.foldl_cons]
    obtain ⟨h1, h2⟩ := ih (if y.2 < x.2 then y else x)
    have hle_x : (if y.2 < x.2 then y else x).2 ≤ x.2 := by
      by_cases hc : y.2 < x.2
      · rw [if_pos hc]; exact hc.le
      · rw [if_neg hc]
    have hle_y : (if y.2 < x.2 then y else x).2 ≤ y.2 := by
      by_cases hc : y.2 < x.2
      · rw [if_pos hc]
      · rw [if_neg hc]; exact not_lt.mp hc
    refine ⟨h1.trans hle_x, ?_⟩
    intro p hp
    rcases List.mem_cons.mp hp with rfl | hp
    · exact h1.trans hle_y
    · exact h2 p hp

theorem pyMinBySnd_spec (l : List (Nat × ℚ)) :
    (pyMinBySnd l = none ↔ l = []) ∧
    ∀ e, pyMinBySnd l = some e → e ∈ l ∧ ∀ p ∈ l, e.2 ≤ p.2 := by
  cases l with
  | nil => simp [pyMinBySnd]
  | cons x xs =>
    refine ⟨by simp [pyMinBySnd], ?_⟩
    intro e he
    have he' : xs.foldl (fun best y => if y.2 < best.2 then y else best) x = e := by
      simpa [pyMinBySnd] using he
    rw [← he']
    refine ⟨pyFoldlMin_mem x xs, ?_⟩
    intro p hp
    rcases List.mem_cons.mp hp with hpx | hp
    · rw [hpx]; exact (pyFoldlMin_le x xs).1
    · exact (pyFoldlMin_le x xs).2 p hp

theorem mem_possibilities (table : List (Nat × ℚ)) (peak : ℚ) (exclude : List Nat)
    (p : Nat × ℚ) :
    p ∈ table.filter (fun tup => decide (peak ≤ tup.2) && !(exclude.contains tup.1)) ↔
    p ∈ table ∧ peak ≤ p.2 ∧ p.1 ∉ exclude := by
  simp [List.mem_filter, and_assoc]

/-! ## C1: _resolve_range selects the tightest qualifying range -/

/-- C1: for every voltage-range table, requested peak `v` and exclusion set
`E`, `_resolve_range` fails with `ArgumentOutOfRangeError` exactly when no
table entry has max voltage ≥ `v` outside `E`; and any entry it returns is a
table entry with max voltage ≥ `v`, identifier not in `E`, and max voltage
minimal among all qualifying entries. -/
theorem resolve_range_spec (table : List (Nat × ℚ)) (v : ℚ) (E : List Nat) :
    (resolve_range table v E = none ↔ ∀ p ∈ table, v ≤ p.2 → p.1 ∈ E) ∧
    ∀ e, resolve_range table v E = some e →
      e ∈ table ∧ v ≤ e.2 ∧ e.1 ∉ E ∧
        ∀ p ∈ table, v ≤ p.2 → p.1 ∉ E → e.2 ≤ p.2 := by
  unfold resolve_range
  obtain ⟨hnone, hsome⟩ :=
    pyMinBySnd_spec (table.filter (fun tup => decide (v ≤ tup.2) && !(E.contains tup.1)))
  constructor
  · rw [hnone, List.filter_eq_nil_iff]
    constructor
    · intro h p hp hv
      by_contra hE
      exact h p hp (by simp [hv, hE])
    · intro h p hp
      simp only [Bool.and_eq_true, decide_eq_true_eq, Bool.not_eq_true']
      rintro ⟨hv, hE⟩
      exact (by simpa using hE : p.1 ∉ E) (h p hp hv)
  · intro e he
    obtain ⟨hmem, hmin⟩ := hsome e he
    obtain ⟨hte, hve, hEe⟩ := (mem_possibilities table v E e).mp hmem
    refine ⟨hte, hve, hEe, ?_⟩
    intro p hp hv hE
    exact hmin p ((mem_possibilities table v E p).mpr ⟨hp, hv, hE⟩)

/-- Witness for C1: on the table `{0 ↦ 1V, 1 ↦ 5V, 2 ↦ 2V}` with requested
peak 2V and empty exclusion set, the resolver returns entry `(2, 2V)`, which
indeed qualifies. -/
theorem resolve_range_spec_witness :
    ((2 : Nat), (2 : ℚ)) ∈ [((0 : Nat), (1 : ℚ)), (1, 5), (2, 2)] ∧ (2 : ℚ) ≤ 2 := by
  have h := (resolve_range_spec [(0, 1), (1, 5), (2, 2)] 2 []).2 (2, 2) (by decide)
  exact ⟨h.1, h.2.1⟩

/-! ## C8: voltage_to_logic_level -/

/-- C8: `voltage_to_logic_level` maps 0V to 0, 5V to 32767, -5V to -32767,
saturates to ±32767 beyond ±5V (in particular 10V maps to 32767), and is
monotone non-decreasing. -/
theorem voltage_to_logic_level_spec :
    voltage_to_logic_level 0 = 0 ∧
    voltage_to_logic_level 5 = 32767 ∧
    voltage_to_logic_level (-5) = -32767 ∧
    voltage_to_logic_level 10 = 32767 ∧
    (∀ v : ℚ, 5 < v → voltage_to_logic_level v = 32767) ∧
    (∀ v : ℚ, v < -5 → voltage_to_logic_level v = -32767) ∧
    (∀ a b : ℚ, a ≤ b → voltage_to_logic_level a ≤ voltage_to_logic_level b) := by
  have hpos : ∀ v : ℚ, 5 ≤ v → voltage_to_logic_level v = 32767 := by
    intro v hv
    have hclamp : min (max (-5 : ℚ) v) 5 = 5 := by
      rw [max_eq_right (by linarith), min_eq_right (by linarith)]
    show pyInt (min (max (-5 : ℚ) v) 5 * (32767 / 5)) = 32767
    rw [hclamp, show ((5 : ℚ) * (32767 / 5)) = ((32767 : ℤ) : ℚ) by norm_num, pyInt_intCast]
  have hneg : ∀ v : ℚ, v ≤ -5 → voltage_to_logic_level v = -32767 := by
    intro v hv
    have hclamp : min (max (-5 : ℚ) v) 5 = -5 := by
      rw [max_eq_left (by linarith), min_eq_left (by linarith)]
    show pyInt (min (max (-5 : ℚ) v) 5 * (32767 / 5)) = -32767
    rw [hclamp, show ((-5 : ℚ) * (32767 / 5)) = ((-32767 : ℤ) : ℚ) by norm_num, pyInt_intCast]
  have hzero : voltage_to_logic_level 0 = 0 := by
    show pyInt (min (max (-5 : ℚ) 0) 5 * (32767 / 5)) = 0
    rw [show (min (max (-5 : ℚ) 0) 5 * (32767 / 5)) = ((0 : ℤ) : ℚ) by norm_num, pyInt_intCast]
  refine ⟨hzero, hpos 5 le_rfl, hneg (-5) le_rfl, hpos 10 (by norm_num), fun v hv => hpos v hv.le,
    fun v hv => hneg v hv.le, ?_⟩
  intro a b hab
  show pyInt (min (max (-5 : ℚ) a) 5 * (32767 / 5)) ≤
    pyInt (min (max (-5 : ℚ) b) 5 * (32767 / 5))
  apply pyInt_mono
  have h2 : min (max (-5 : ℚ) a) 5 ≤ min (max (-5 : ℚ) b) 5 :=
    min_le_min (max_le_max le_rfl hab) le_rfl
  exact mul_le_mul_of_nonneg_right h2 (by norm_num)

/-- Witness for C8: instantiating the quantified parts at 6V, -6V and the
pair 1V ≤ 2V. -/
theorem voltage_to_logic_level_spec_witness :
    voltage_to_logic_level 6 = 32767 ∧ voltage_to_logic_level (-6) = -32767 ∧
    voltage_to_logic_level 1 ≤ voltage_to_logic_level 2 :=
  ⟨voltage_to_logic_level_spec.2.2.2.2.1 6 (by norm_num),
   voltage_to_logic_level_spec.2.2.2.2.2.1 (-6) (by norm_num),
   voltage_to_logic_level_spec.2.2.2.2.2.2 1 2 (by norm_num)⟩

/-! ## C5 / C9: _python_set_channel status handling and offset handling -/

theorem status_form_not_bool (env : SetChanEnv) (h : status_form env) :
    ¬ (env.set_channel_argtypes.length = 5 ∧
       env.set_channel_argtypes[1]? = some CType.i16) := by
  rintro ⟨h5, h16⟩
  rcases h with ⟨h5x, h32⟩ | h6
  · exact absurd (h16.symm.trans h32) (by simp)
  · rw [h5] at h6; exact absurd h6 (by norm_num)

theorem python_set_channel_status (env : SetChanEnv) (s : Int) (handle : Int)
    (channel_id enabled coupling_id range_id : Nat) (analog_offset : Option ℚ)
    (hform : status_form env)
    (hoff : env.set_channel_argtypes.length = 6 ∨ analog_offset = none)
    (hnat : ∀ c, env.set_channel_native c = s) :
    (python_set_channel env handle channel_id enabled coupling_id range_id analog_offset).1 =
      if s ≠ PICO_OK then
        if s = PICO_INVALID_VOLTAGE_RANGE then .error .validRangeEnumValueNotValidForThisDevice
        else if s = PICO_INVALID_CHANNEL ∧ enabled = 0 then .ok ()
        else .error .argumentOutOfRange
      else .ok () := by
  have hform2 : (env.set_channel_argtypes.length = 5 ∧
      env.set_channel_argtypes[1]? = some CType.i32) ∨
      env.set_channel_argtypes.length = 6 := hform
  unfold python_set_channel
  rw [if_neg (status_form_not_bool env hform), if_pos hform2]
  by_cases h6 : env.set_channel_argtypes.length = 6
  · rw [if_pos h6]
    simp only [hnat]
    split_ifs <;> rfl
  · have hoffn : analog_offset = none := hoff.resolve_left h6
    rw [if_neg h6, if_neg (by simp [hoffn])]
    simp only [hnat]
    split_ifs <;> rfl

/-- C5: under the status-code native set-channel form (with an offset the
bound form accepts), when the native call answers `PICO_INVALID_CHANNEL`
and the caller was disabling (`enabled = 0`), `_python_set_channel` returns
success and raises nothing; any other non-OK status with `enabled = 0`
raises an error, and `PICO_INVALID_CHANNEL` with the channel enabled raises
`ArgumentOutOfRangeError`. -/
theorem set_channel_disable_missing_channel (env : SetChanEnv) (s handle : Int)
    (channel_id enabled coupling_id range_id : Nat) (analog_offset : Option ℚ)
    (hform : status_form env)
    (hoff : env.set_channel_argtypes.length = 6 ∨ analog_offset = none)
    (hnat : ∀ c, env.set_channel_native c = s) :
    (s = PICO_INVALID_CHANNEL → enabled = 0 →
      (python_set_channel env handle channel_id enabled coupling_id range_id analog_offset).1
        = .ok ()) ∧
    (s ≠ PICO_OK → enabled = 0 → s ≠ PICO_INVALID_CHANNEL →
      ∃ e, (python_set_channel env handle channel_id enabled coupling_id range_id
        analog_offset).1 = .error e) ∧
    (s = PICO_INVALID_CHANNEL → enabled ≠ 0 →
      (python_set_channel env handle channel_id enabled coupling_id range_id analog_offset).1
        = .error .argumentOutOfRange) := by
  have h := python_set_channel_status env s handle channel_id enabled coupling_id range_id
    analog_offset hform hoff hnat
  refine ⟨?_, ?_, ?_⟩
  · intro hs hen
    subst hs
    rw [h, if_pos (by decide : PICO_INVALID_CHANNEL ≠ PICO_OK),
        if_neg (by decide : ¬ PICO_INVALID_CHANNEL = PICO_INVALID_VOLTAGE_RANGE),
        if_pos ⟨rfl, hen⟩]
  · intro hsok hen hsic
    rw [h, if_pos hsok]
    by_cases hivr : s = PICO_INVALID_VOLTAGE_RANGE
    · rw [if_pos hivr]; exact ⟨_, rfl⟩
    · rw [if_neg hivr, if_neg (fun hc => hsic hc.1)]; exact ⟨_, rfl⟩
  · intro hs hen
    subst hs
    rw [h, if_pos (by decide : PICO_INVALID_CHANNEL ≠ PICO_OK),
        if_neg (by decide : ¬ PICO_INVALID_CHANNEL = PICO_INVALID_VOLTAGE_RANGE),
        if_neg (fun hc => hen hc.2)]

/-- Witness for C5: on the 6-parameter status-code driver whose device
answers "invalid channel" to every request, disabling channel 4 succeeds
silently. -/
theorem set_channel_disable_missing_channel_witness :
    (python_set_channel invalidChannelEnv 1 4 0 0 9 none).1 = .ok () :=
  (set_channel_disable_missing_channel invalidChannelEnv PICO_INVALID_CHANNEL 1 4 0 0 9 none
    (Or.inr rfl) (Or.inl rfl) (fun _ => rfl)).1 rfl rfl

/-- C9: when the bound `_set_channel` has 6 parameters, an omitted analog
offset is defaulted to `0.0` and passed through in the (single) native call;
when it has 5 parameters — either the `c_int16` or the `c_int32` variant —
any non-null offset raises `ArgumentOutOfRangeError` with no native call
issued. -/
theorem set_channel_offset_spec (env : SetChanEnv) (handle : Int)
    (channel_id enabled coupling_id range_id : Nat) :
    (env.set_channel_argtypes.length = 6 →
      (python_set_channel env handle channel_id enabled coupling_id range_id none).2 =
        [⟨handle, channel_id, enabled, coupling_id, range_id, some 0⟩]) ∧
    (∀ x : ℚ, env.set_channel_argtypes.length = 5 →
      (env.set_channel_argtypes[1]? = some CType.i16 ∨
       env.set_channel_argtypes[1]? = some CType.i32) →
      python_set_channel env handle channel_id enabled coupling_id range_id (some x) =
        (.error .argumentOutOfRange, [])) := by
  constructor
  · intro h6
    unfold python_set_channel
    rw [if_neg (fun hc => by rw [hc.1] at h6; exact absurd h6 (by norm_num)),
        if_pos (Or.inr h6), if_pos h6]
    dsimp only
    split_ifs <;> rfl
  · intro x h5 hdisj
    rcases hdisj with h16 | h32
    · unfold python_set_channel
      rw [if_pos ⟨h5, h16⟩, if_pos (by simp)]
    · unfold python_set_channel
      rw [if_neg (fun hc => absurd (hc.2.symm.trans h32) (by simp)),
          if_pos (Or.inl ⟨h5, h32⟩),
          if_neg (fun h6 => by rw [h5] at h6; exact absurd h6 (by norm_num)),
          if_pos (by simp)]

/-- Witness for C9: the 6-parameter driver gets offset `0.0` passed through
when the caller omits it; the 5-parameter `c_int32` driver rejects offset
`0.5` without a native call. -/
theorem set_channel_offset_spec_witness :
    (python_set_channel invalidChannelEnv 1 0 1 0 2 none).2 = [⟨1, 0, 1, 0, 2, some 0⟩] ∧
    python_set_channel int32Env 1 0 1 0 2 (some (1/2)) = (.error .argumentOutOfRange, []) :=
  ⟨(set_channel_offset_spec invalidChannelEnv 1 0 1 0 2).1 rfl,
   (set_channel_offset_spec int32Env 1 0 1 0 2).2 (1/2) rfl (Or.inr rfl)⟩

/-! ## C2: the range-exclusion retry loop -/

theorem rejectAll_loop_fuel_out (fuel : Nat) (excluded : List Nat) :
    set_channel_loop rejectAllEnv [(0, 1)] 1 0 0 false 1 none fuel excluded = none := by
  induction fuel generalizing excluded with
  | zero => rfl
  | succ n ih =>
    have hstep : set_channel_loop rejectAllEnv [(0, 1)] 1 0 0 false 1 none (n + 1) excluded =
        set_channel_loop rejectAllEnv [(0, 1)] 1 0 0 false 1 none n (excluded ++ [0]) := rfl
    rw [hstep]
    exact ih _

/-- C2 (refuted by the code): when the channel is being disabled
(`enabled = false`), `set_channel` uses `range_id = 0` without consulting
the resolver, so a native set-channel call that rejects the request — here
the boolean-return driver `rejectAllEnv`, as when disabling a channel the
hardware variant lacks — makes the retry loop repeat the identical call
forever: for every fuel bound and exclusion state the loop is still
running, contradicting the claimed unconditional termination. -/
theorem set_channel_disable_reject_loops (fuel : Nat) (excluded : List Nat) :
    set_channel_loop rejectAllEnv [(0, 1)] 1 0 0 false 1 none fuel excluded = none :=
  rejectAll_loop_fuel_out fuel excluded

/-- The nontermination of C2's disabled-path scenario, phrased through
`set_channel_terminates`: no fuel ever suffices. -/
theorem set_channel_disable_reject_not_terminating :
    ¬ set_channel_terminates rejectAllEnv [(0, 1)] 1 0 0 false 1 none := by
  rintro ⟨fuel, hf⟩
  rw [rejectAll_loop_fuel_out fuel []] at hf
  simp at hf


/-! Supporting facts for C2's verdict: with the channel enabled, the retry
loop always terminates — each rejection strictly shrinks the set of
qualifying, non-excluded table entries, so `|table| + 1` iterations always
suffice. The nontermination is confined to the disabled path. -/

theorem length_filter_le_of_imp {α : Type} (l : List α) (p q : α → Bool)
    (himp : ∀ x, q x = true → p x = true) :
    (l.filter q).length ≤ (l.filter p).length := by
  induction l with
  | nil => simp
  | cons x xs ih =>
    by_cases hq : q x = true
    · rw [List.filter_cons_of_pos hq, List.filter_cons_of_pos (himp x hq)]
      simpa using ih
    · rw [List.filter_cons_of_neg (by simpa using hq)]
      by_cases hp : p x = true
      · rw [List.filter_cons_of_pos hp]; exact ih.trans (Nat.le_succ _)
      · rw [List.filter_cons_of_neg (by simpa using hp)]; exact ih

theorem length_filter_lt_of_mem {α : Type} (l : List α) (p q : α → Bool) (a : α)
    (ha : a ∈ l) (hpa : p a = true) (hqa : q a = false)
    (himp : ∀ x, q x = true → p x = true) :
    (l.filter q).length < (l.filter p).length := by
  induction l with
  | nil => cases ha
  | cons x xs ih =>
    rcases List.mem_cons.mp ha with hax | hmem
    · rw [← hax, List.filter_cons_of_pos hpa, List.filter_cons_of_neg (by simp [hqa])]
      exact Nat.lt_succ_of_le (length_filter_le_of_imp xs p q himp)
    · by_cases hq : q x = true
      · rw [List.filter_cons_of_pos hq, List.filter_cons_of_pos (himp x hq)]
        exact Nat.succ_lt_succ (ih hmem)
      · rw [List.filter_cons_of_neg (by simpa using hq)]
        by_cases hp : p x = true
        · rw [List.filter_cons_of_pos hp]; exact Nat.lt_succ_of_lt (ih hmem)
        · rw [List.filter_cons_of_neg (by simpa using hp)]; exact ih hmem

theorem resolve_range_excluded_decreases (table : List (Nat × ℚ)) (v : ℚ) (E : List Nat)
    (rid : Nat) (mv : ℚ) (h : resolve_range table v E = some (rid, mv)) :
    (table.filter (fun tup => decide (v ≤ tup.2) && !((E ++ [rid]).contains tup.1))).length <
    (table.filter (fun tup => decide (v ≤ tup.2) && !(E.contains tup.1))).length := by
  obtain ⟨hmem, hv, hE, -⟩ := (resolve_range_spec table v E).2 (rid, mv) h
  apply length_filter_lt_of_mem table _ _ (rid, mv) hmem
  · simp [hv, hE]
  · simp
  · intro x hx
    simp only [Bool.and_eq_true, decide_eq_true_eq, Bool.not_eq_true'] at hx ⊢
    refine ⟨hx.1, ?_⟩
    have hx2 := hx.2
    simp at hx2 ⊢
    exact fun hc => hx2.1 hc

theorem set_channel_loop_succ (env : SetChanEnv) (table : List (Nat × ℚ)) (handle : Int)
    (channel_id coupling_id : Nat) (peak : ℚ) (analog_offset : Option ℚ)
    (n : Nat) (excluded : List Nat) :
    set_channel_loop env table handle channel_id coupling_id true peak analog_offset
        (n + 1) excluded =
      match resolve_range table peak excluded with
      | none => some (.failed .argumentOutOfRange)
      | some (rid, mv) =>
        match (python_set_channel env handle channel_id 1 coupling_id rid analog_offset).1 with
        | .ok _ => some (.accepted (some mv))
        | .error .validRangeEnumValueNotValidForThisDevice =>
          set_channel_loop env table handle channel_id coupling_id true peak analog_offset n
            (excluded ++ [rid])
        | .error e => some (.failed e) := by
  cases hres : resolve_range table peak excluded with
  | none =>
    rw [set_channel_loop, hres]
    rfl
  | some e =>
    obtain ⟨rid, mv⟩ := e
    rw [set_channel_loop, hres]
    rfl

theorem set_channel_loop_enabled_isSome (env : SetChanEnv) (table : List (Nat × ℚ))
    (handle : Int) (channel_id coupling_id : Nat) (peak : ℚ) (analog_offset : Option ℚ) :
    ∀ (fuel : Nat) (excluded : List Nat),
      (table.filter (fun tup => decide (peak ≤ tup.2) && !(excluded.contains tup.1))).length
        < fuel →
      (set_channel_loop env table handle channel_id coupling_id true peak analog_offset
        fuel excluded).isSome = true := by
  intro fuel
  induction fuel with
  | zero => intro excluded h; omega
  | succ n ih =>
    intro excluded hm
    rw [set_channel_loop_succ]
    cases hres : resolve_range table peak excluded with
    | none => simp
    | some e =>
      obtain ⟨rid, mv⟩ := e
      cases hcall : (python_set_channel env handle channel_id 1 coupling_id rid
          analog_offset).1 with
      | ok u => simp [hcall]
      | error e =>
        cases e with
        | validRangeEnumValueNotValidForThisDevice =>
          simp only [hcall]
          apply ih
          have hdec := resolve_range_excluded_decreases table peak excluded rid mv hres
          omega
        | argumentOutOfRange => simp [hcall]
        | invalidTimebase => simp [hcall]
        | deviceNotFound => simp [hcall]
        | notImplemented => simp [hcall]

theorem set_channel_enabled_terminates (env : SetChanEnv) (table : List (Nat × ℚ))
    (handle : Int) (channel_id coupling_id : Nat) (peak : ℚ) (analog_offset : Option ℚ) :
    set_channel_terminates env table handle channel_id coupling_id true peak analog_offset :=
  ⟨table.length + 1,
    set_channel_loop_enabled_isSome env table handle channel_id coupling_id peak analog_offset
      (table.length + 1) []
      (Nat.lt_succ_of_le (List.length_filter_le _ _))⟩


/-! ## C3: get_timebase dispatch and nanoseconds-to-seconds normalization -/

/-- C3: `get_timebase` dispatches by the bound entry point's parameter
types; under the legacy shape a zero return code raises
`InvalidTimebaseError` and otherwise the returned interval is the native
integer nanoseconds times `1e-9` exactly; under the timebase2 shape a
non-OK status raises `InvalidTimebaseError` and otherwise the returned
interval is the native float nanoseconds times `1e-9` exactly. -/
theorem get_timebase_spec (env : GetTimebaseEnv) (timebase_id segment_index : Nat) :
    (legacy_timebase_shape env → env.legacy_return_code = 0 →
      get_timebase env timebase_id segment_index = .error .invalidTimebase) ∧
    (legacy_timebase_shape env → env.legacy_return_code ≠ 0 →
      get_timebase env timebase_id segment_index =
        .ok ⟨timebase_id, (env.legacy_time_interval : ℚ) * (1 / 1000000000),
             some env.legacy_time_units, env.legacy_max_samples, none⟩) ∧
    (¬ legacy_timebase_shape env → timebase2_shape env → env.tb2_status ≠ PICO_OK →
      get_timebase env timebase_id segment_index = .error .invalidTimebase) ∧
    (¬ legacy_timebase_shape env → timebase2_shape env → env.tb2_status = PICO_OK →
      get_timebase env timebase_id segment_index =
        .ok ⟨timebase_id, env.tb2_time_interval * (1 / 1000000000), none,
             env.tb2_max_samples, some segment_index⟩) := by
  refine ⟨?_, ?_, ?_, ?_⟩
  · intro hsh hrc
    have hsh2 : env.get_timebase_argtypes.length = 7 ∧
        env.get_timebase_argtypes[1]? = some CType.i16 := hsh
    unfold get_timebase python_get_timebase
    rw [if_pos hsh2, if_pos hrc]
  · intro hsh hrc
    have hsh2 : env.get_timebase_argtypes.length = 7 ∧
        env.get_timebase_argtypes[1]? = some CType.i16 := hsh
    unfold get_timebase python_get_timebase
    rw [if_pos hsh2, if_neg hrc]
  · intro hnl hsh hst
    have hnl2 : ¬ (env.get_timebase_argtypes.length = 7 ∧
        env.get_timebase_argtypes[1]? = some CType.i16) := hnl
    have hsh2 : env.has_get_timebase2 = true ∧ env.get_timebase2_argtypes.length = 7 ∧
        env.get_timebase2_argtypes[1]? = some CType.u32 := hsh
    unfold get_timebase python_get_timebase
    rw [if_neg hnl2, if_pos hsh2, if_pos hst]
  · intro hnl hsh hst
    have hnl2 : ¬ (env.get_timebase_argtypes.length = 7 ∧
        env.get_timebase_argtypes[1]? = some CType.i16) := hnl
    have hsh2 : env.has_get_timebase2 = true ∧ env.get_timebase2_argtypes.length = 7 ∧
        env.get_timebase2_argtypes[1]? = some CType.u32 := hsh
    unfold get_timebase python_get_timebase
    rw [if_neg hnl2, if_pos hsh2, if_neg (by simp [hst])]

/-- Witness for C3: the legacy driver answering 8 ns yields 8e-9 s; the
timebase2 driver answering 12.5 ns yields 12.5e-9 s with the segment index
echoed back. -/
theorem get_timebase_spec_witness :
    get_timebase legacyTimebaseEnv 3 0 =
      .ok ⟨3, ((8 : Int) : ℚ) * (1 / 1000000000), some 1, 100, none⟩ ∧
    get_timebase timebase2Env 7 2 =
      .ok ⟨7, (25 / 2 : ℚ) * (1 / 1000000000), none, 200, some 2⟩ :=
  ⟨(get_timebase_spec legacyTimebaseEnv 3 0).2.1 ⟨rfl, rfl⟩ (by decide),
   (get_timebase_spec timebase2Env 7 2).2.2.2 (fun hc => by exact absurd hc.2 (by decide))
     ⟨rfl, rfl, rfl⟩ rfl⟩

/-! ## C4: the overflow bit test -/

/-- C4 (refuted by the code): with the native overflow field 2 (bit 1 set)
and active channels A (index 0) and B (index 1), `get_values` reports no
overflow warning at all: its test is `overflow & (1 >> index)`, and
`1 >> index` is zero for every index ≥ 1, so channel B — whose bit is set —
is never flagged (the intended bit test is `1 << index`). -/
theorem overflow_bit_bug :
    overflow_warning [("A", 0), ("B", 1)] 2 ["A", "B"] = [] ∧ Nat.testBit 2 1 = true :=
  ⟨rfl, rfl⟩

/-! ## C10: the requires_device guard -/

/-- C10: every `Library` method wrapped by `requires_device` (in the source:
`close_unit`, `get_unit_info`, `set_channel`, `set_digital_port`,
`memory_segments`, `get_timebase`, `set_null_trigger`, `run_block`,
`is_ready`, `maximum_value`, `get_values`, `stop`) raises `TypeError` and
performs no native call when its device argument is not a `Device` instance
or is a `Device` registered to a different driver, whatever the wrapped
method body is. -/
theorem requires_device_spec (self : Nat) (device : PyArg)
    (h : ∀ d : Device, device = .dev d → d.driver ≠ self) :
    ∀ {α β : Type} (method : Device → α × List β),
      requires_device self device method = (.error (), []) := by
  intro α β method
  cases device with
  | notADevice => rfl
  | dev d =>
    have hne := h d rfl
    simp [requires_device, hne]

/-- Witness for C10: a non-`Device` argument is rejected with no native
call. -/
theorem requires_device_spec_witness :
    requires_device 0 .notADevice (fun _ => ((), ([] : List Unit))) = (.error (), []) :=
  requires_device_spec 0 .notADevice (fun _ hd => nomatch hd) (fun _ => ((), []))

/-! ## C6: list_units closes every handle it opened -/

theorem list_units_go_spec (avail : List Int) : ∀ (o handles infos : List Int),
    list_units_go ⟨avail, o⟩ handles infos =
      (handles ++ avail, infos ++ avail, ⟨[], avail.reverse ++ o⟩) := by
  induction avail with
  | nil => intro o handles infos; simp [list_units_go]
  | cons h t ih =>
    intro o handles infos
    rw [list_units_go, ih]
    simp

theorem foldl_close_openh (handles : List Int) : ∀ (s : UnitState),
    (handles.foldl (fun st h => python_close_unit h st) s).openh =
      handles.foldl (fun o h => o.erase h) s.openh := by
  induction handles with
  | nil => intro s; rfl
  | cons h t ih =>
    intro s
    simp only [List.foldl_cons]
    rw [ih]
    rfl

theorem foldl_erase_perm : ∀ (l o : List Int), o.Perm l →
    l.foldl (fun acc h => acc.erase h) o = [] := by
  intro l
  induction l with
  | nil => intro o hp; simpa using hp.eq_nil
  | cons h t ih =>
    intro o hp
    simp only [List.foldl_cons]
    apply ih
    have hperm := hp.erase h
    simpa [List.erase_cons_head] using hperm

/-- C6: for every run of `list_units` against a driver with any list of
available units and no handle initially open, every handle opened during
the run is closed before the function returns — the final open-handle set
is empty, including across the terminating `DeviceNotFoundError` of the
native open — and one info record is collected per opened unit. -/
theorem list_units_closes_all (avail : List Int) :
    ((list_units ⟨avail, []⟩).2).openh = [] ∧
    (list_units ⟨avail, []⟩).1.length = avail.length := by
  unfold list_units
  rw [list_units_go_spec]
  constructor
  · rw [foldl_close_openh]
    apply foldl_erase_perm
    simp [List.reverse_perm]
  · simp

/-! ## C7: get_unit_info validates keys before any native call -/

theorem invalid_info_lines_mem (env : UnitInfoEnv) (keys : List String) (k : String) :
    k ∈ invalid_info_lines env keys ↔ k ∈ keys ∧ k ∉ env.pico_info.map Prod.fst := by
  unfold invalid_info_lines
  simp [List.mem_dedup, List.mem_filter]

theorem invalid_info_lines_nil (env : UnitInfoEnv) (keys : List String) :
    invalid_info_lines env keys = [] ↔ ∀ k ∈ keys, k ∈ env.pico_info.map Prod.fst := by
  rw [List.eq_nil_iff_forall_not_mem]
  constructor
  · intro h k hk
    by_contra hnk
    exact h k ((invalid_info_lines_mem env keys k).mpr ⟨hk, hnk⟩)
  · intro h k hk
    obtain ⟨h1, h2⟩ := (invalid_info_lines_mem env keys k).mp hk
    exact h2 (h k h1)

/-- C7: `_python_get_unit_info_wrapper` validates all requested keys against
the driver's `PICO_INFO` set before anything else: if any key is unknown it
raises `ArgumentOutOfRangeError` naming exactly the invalid keys and issues
zero native calls; when all keys are valid it returns a record and does
query the device (at least one native call). -/
theorem get_unit_info_validates_first (env : UnitInfoEnv) (handle : Int) (keys : List String) :
    ((∃ k ∈ keys, k ∉ env.pico_info.map Prod.fst) →
      python_get_unit_info_wrapper env handle keys =
        (.error (invalid_info_lines env keys), []) ∧
      ∀ k, k ∈ invalid_info_lines env keys ↔ k ∈ keys ∧ k ∉ env.pico_info.map Prod.fst) ∧
    ((∀ k ∈ keys, k ∈ env.pico_info.map Prod.fst) →
      (∃ r, (python_get_unit_info_wrapper env handle keys).1 = .ok r) ∧
      (python_get_unit_info_wrapper env handle keys).2 ≠ []) := by
  constructor
  · rintro ⟨k, hk, hnk⟩
    have hne : invalid_info_lines env keys ≠ [] := by
      intro h0
      exact hnk ((invalid_info_lines_nil env keys).mp h0 k hk)
    unfold python_get_unit_info_wrapper
    rw [if_pos hne]
    exact ⟨rfl, fun k2 => invalid_info_lines_mem env keys k2⟩
  · intro hall
    have h0 : invalid_info_lines env keys = [] := (invalid_info_lines_nil env keys).mpr hall
    unfold python_get_unit_info_wrapper
    rw [if_neg (by simp [h0])]
    by_cases hk : keys = []
    · rw [if_pos hk]
      exact ⟨⟨_, rfl⟩, by simp⟩
    · rw [if_neg hk]
      refine ⟨⟨_, rfl⟩, ?_⟩
      simpa using hk

/-- Witness for C7: requesting the unknown key `NOT_A_KEY` fails before any
native call. -/
theorem get_unit_info_validates_first_witness :
    python_get_unit_info_wrapper uinfoEnv 5 ["NOT_A_KEY"] =
      (.error (invalid_info_lines uinfoEnv ["NOT_A_KEY"]), []) :=
  ((get_unit_info_validates_first uinfoEnv 5 ["NOT_A_KEY"]).1
    ⟨"NOT_A_KEY", by simp, by simp [uinfoEnv]⟩).1


end PicoSDK
